import Mathlib

/-!
Verification of `making_bar_charts.py`
(`src/themes/outputs_and_reporting/data_visualisation/basic_data_visualisation/python/making_bar_charts.py`).

The script reads a CSV file, filters the rows to year 1997, counts countries per
continent, and renders a horizontal bar chart with positional text labels and
marker colours, displayed with `categoryorder: "total ascending"`.

Modelling conventions:
* A loaded dataframe is a header (column names in order) and rows of string
  cells; an integer cell such as the year `1997` is modelled by its decimal
  string `"1997"`.  A cell that is absent (a row shorter than the header) plays
  the role of a pandas `NaN` and is read as `none`.
* `pandas.groupby` sorts its keys ascending and drops `NaN` keys;
  `agg({"country": "count"})` counts the non-null `country` cells of a group;
  `value_counts` sorts descending by count, stably, keeping first-occurrence
  order among ties.
* `plotly` attaches `text` and `marker_color` arrays to the data points of the
  trace positionally, in data order; `categoryorder: "total ascending"` only
  reorders the displayed axis categories (each bar keeps its own text and
  colour), modelled by `Chart.displayBars`, whose list is read from the origin
  outward.
* A missing required column makes pandas raise (`KeyError` on `"year"`,
  `"continent"` or `"country"`; `IndexError` for `iloc[0:, 1]` on a frame with
  fewer than two columns); the embedding returns `none` in those cases.
-/

namespace MakingBarCharts

/-- The lexicographic-by-code-point order on strings (the order in which both
Python and `≤` on `String` compare them), decided through the character lists
so that concrete instances reduce. -/
instance (priority := 2000) strDecLE : @DecidableRel String (· ≤ ·) := fun a b =>
  decidable_of_iff (a.toList ≤ b.toList) String.le_iff_toList_le.symm

/-- A loaded tabular dataset: column names in order, and rows of string cells. -/
structure DataFrame where
  header : List String
  rows : List (List String)
deriving DecidableEq, Repr

/-- The value of column `i` in row `r`, if present (an absent cell is a `NaN`). -/
def cellAt (r : List String) (i : Nat) : Option String := r[i]?

/-- The non-null values of positional column `i`, in row order (pandas drops `NaN`). -/
def DataFrame.colAt (df : DataFrame) (i : Nat) : List String :=
  df.rows.filterMap (fun r => r[i]?)

/-- The positional index of a named column, if that column exists. -/
def DataFrame.colIndex (df : DataFrame) (name : String) : Option Nat :=
  df.header.indexOf? name

/-- Well-formed CSV data: every row has exactly one cell per header column. -/
def DataFrame.wf (df : DataFrame) : Prop :=
  ∀ r ∈ df.rows, r.length = df.header.length

/-- `vulnerable[vulnerable["year"].isin([year])]`: keeps the rows whose `year`
cell equals the target year; `none` models the `KeyError` raised when there is
no `year` column. -/
def filter_by_year (df : DataFrame) (year : String) : Option DataFrame :=
  (df.colIndex "year").map fun yi =>
    ⟨df.header, df.rows.filter (fun r => cellAt r yi == some year)⟩

/-- The distinct values of a list, keeping first occurrences in order. -/
def firstOccs : List String → List String
  | [] => []
  | x :: xs => x :: (firstOccs xs).filter (fun y => y != x)

/-- `vuln_filter.groupby("continent").agg({"country": "count"}).reset_index()`
followed by the rename of `country` to `count`: the distinct continent values
sorted ascending (pandas `groupby` sorts its keys), each paired with the number
of rows of its group holding a non-null `country` cell; `none` models the
`KeyError` raised when the `continent` or `country` column is absent. -/
def aggregate_counts (df : DataFrame) : Option (List (String × Nat)) :=
  (df.colIndex "continent").bind fun ci =>
    (df.colIndex "country").map fun cti =>
      (List.insertionSort (· ≤ ·) (firstOccs (df.colAt ci))).map fun c =>
        (c, df.rows.countP (fun r => cellAt r ci == some c && (cellAt r cti).isSome))

/-- Comparison of value/count pairs by descending count. -/
def descCount (a b : String × Nat) : Prop := b.2 ≤ a.2

instance : DecidableRel descCount := fun a b => Nat.decLe b.2 a.2

instance : IsTotal (String × Nat) descCount := ⟨fun a b => Nat.le_total b.2 a.2⟩

instance : IsTrans (String × Nat) descCount :=
  ⟨fun _ _ _ h h2 => Nat.le_trans h2 h⟩

/-- `column.value_counts()`: the distinct values of the column, each with its
multiplicity, sorted by count descending; the stable sort keeps ties in
first-occurrence order. -/
def value_counts (column : List String) : List (String × Nat) :=
  List.insertionSort descCount ((firstOccs column).map fun v => (v, column.count v))

/-- The hard-coded colour list: a highlight colour followed by four neutral ones. -/
def colours : List String :=
  ["#003d59", "lightgrey", "lightgrey", "lightgrey", "lightgrey"]

/-- One bar of the trace: its category, its length, and the positionally
assigned text label and marker colour (`none` is the library default). -/
structure Bar where
  continent : String
  count : Nat
  text : Option String
  marker_color : Option String
deriving DecidableEq, Repr

/-- The decorated chart: title, the two source/note texts, and the bars in
trace (data) order. -/
structure Chart where
  title : String
  footnotes : List String
  bars : List Bar
deriving DecidableEq, Repr

/-- `update_traces(text=..., textposition="outside")` and
`update_traces(marker_color=colours)`: the `i`-th data point receives the
`i`-th text and the `i`-th colour; past the end of a list the remaining bars
keep the library default (`none`). -/
def decorate : List (String × Nat) → List String → List String → List Bar
  | [], _, _ => []
  | p :: ps, ts, cs => ⟨p.1, p.2, ts.head?, cs.head?⟩ :: decorate ps ts.tail cs.tail

/-- Comparison of bars by their counts. -/
def barLE (a b : Bar) : Prop := a.count ≤ b.count

instance : DecidableRel barLE := fun a b => Nat.decLe a.count b.count

instance : IsTotal Bar barLE := ⟨fun a b => Nat.le_total a.count b.count⟩

instance : IsTrans Bar barLE := ⟨fun _ _ _ h h2 => Nat.le_trans h h2⟩

/-- `update_layout(yaxis={"categoryorder": "total ascending"})`: the displayed
order of the bars, from the origin outward — ascending by count, each bar
keeping its own text and colour. -/
def Chart.displayBars (c : Chart) : List Bar := List.insertionSort barLE c.bars

/-- The body of `making_bar_charts()` after the CSV has been read: filter to
1997, aggregate counts per continent, compute the label strings from positional
column 1 of the filtered frame via `value_counts`, build the bar chart and
decorate it.  `none` models the run aborting on a pandas `KeyError` /
`IndexError` for a missing column. -/
def making_bar_charts (vulnerable : DataFrame) : Option Chart :=
  (filter_by_year vulnerable "1997").bind fun vuln_filter =>
  (aggregate_counts vuln_filter).bind fun pivot_vuln_filter =>
  if 2 ≤ vuln_filter.header.length then
    let str_item_counts := (value_counts (vuln_filter.colAt 1)).map fun p => toString p.2
    some ⟨"Figure 1: Africa has the most countries by continent",
          ["Source: Pandemic Preparedness Toolkit",
           "Note: Counts are based on boundaries in 1997."],
          decorate pivot_vuln_filter str_item_counts colours⟩
  else none

/-! ### Helper lemmas -/

theorem firstOccs_mem {y : String} : ∀ {l : List String}, y ∈ firstOccs l ↔ y ∈ l
  | [] => Iff.rfl
  | x :: xs => by
    by_cases hyx : y = x <;>
      simp [firstOccs, List.mem_filter, firstOccs_mem (l := xs), hyx]

theorem firstOccs_nodup : ∀ l : List String, (firstOccs l).Nodup
  | [] => List.nodup_nil
  | x :: xs => by
    refine List.Nodup.cons ?_ ((firstOccs_nodup xs).filter _)
    intro hx
    simpa using (List.mem_filter.mp hx).2

theorem firstOccs_perm_dedup (l : List String) : List.Perm (firstOccs l) l.dedup :=
  (List.perm_ext_iff_of_nodup (firstOccs_nodup l) l.nodup_dedup).2
    (by simp [firstOccs_mem, List.mem_dedup])

theorem sum_count_firstOccs (l : List String) :
    ((firstOccs l).map (fun c => l.count c)).sum = l.length := by
  rw [((firstOccs_perm_dedup l).map (fun c => l.count c)).sum_eq]
  exact List.sum_map_count_dedup_eq_length l

theorem decorate_getElem? :
    ∀ (ps : List (String × Nat)) (ts cs : List String) (i : Nat),
      (decorate ps ts cs)[i]? =
        (ps[i]?).map (fun p => (⟨p.1, p.2, ts[i]?, cs[i]?⟩ : Bar))
  | [], _, _, _ => by simp [decorate]
  | p :: ps, ts, cs, 0 => by simp [decorate, List.head?_eq_getElem?]
  | p :: ps, ts, cs, i + 1 => by
    simpa [decorate] using decorate_getElem? ps ts.tail cs.tail i

theorem decorate_length (ps : List (String × Nat)) :
    ∀ (ts cs : List String), (decorate ps ts cs).length = ps.length := by
  induction ps with
  | nil => intro ts cs; rfl
  | cons p ps ih => intro ts cs; simp [decorate, ih]

theorem decorate_mem {ps : List (String × Nat)} {ts cs : List String} {b : Bar} :
    b ∈ decorate ps ts cs →
      ∃ (i : Nat) (p : String × Nat),
        ps[i]? = some p ∧ b = ⟨p.1, p.2, ts[i]?, cs[i]?⟩ := by
  intro hb
  obtain ⟨i, hi, hget⟩ := List.getElem_of_mem hb
  have h := decorate_getElem? ps ts cs i
  rw [List.getElem?_eq_getElem hi, hget] at h
  cases hp : ps[i]? with
  | none => rw [hp] at h; exact absurd h (by simp)
  | some p =>
    rw [hp] at h
    exact ⟨i, p, hp, by simpa using h⟩

/-! ### Concrete datasets used in witnesses and counterexamples -/

/-- The scenario dataset of the spec:
rows `(1997, Africa, A)`, `(1997, Africa, B)`, `(1997, Asia, C)`, `(1998, Europe, D)`. -/
def scenarioDf : DataFrame :=
  ⟨["year", "continent", "country"],
   [["1997", "Africa", "A"], ["1997", "Africa", "B"],
    ["1997", "Asia", "C"], ["1998", "Europe", "D"]]⟩

/-- A 1997 dataset whose alphabetically first continent (Africa) has the
smaller count: Africa one row, Asia two rows. -/
def permutedDf : DataFrame :=
  ⟨["year", "continent", "country"],
   [["1997", "Africa", "X"], ["1997", "Asia", "Y"], ["1997", "Asia", "Z"]]⟩

/-- A 1997 dataset whose alphabetically first continent (Alpha, two rows) has
neither the largest (Gamma, three rows) nor the smallest (Beta, one row) count. -/
def middleDf : DataFrame :=
  ⟨["year", "continent", "country"],
   [["1997", "Alpha", "a"], ["1997", "Alpha", "b"], ["1997", "Beta", "c"],
    ["1997", "Gamma", "d"], ["1997", "Gamma", "e"], ["1997", "Gamma", "f"]]⟩

/-- A dataset with a year column but no row of year 1997. -/
def otherYearDf : DataFrame :=
  ⟨["year", "continent", "country"], [["1998", "Europe", "D"]]⟩

/-! ### Claim theorems -/

/-- Claim C6: For every dataset with a `year` column and every target year,
`filter_by_year` returns exactly the rows whose year cell equals the target
(each result row has that year, every matching row is kept, and the result
size is the number of matching rows), and a match-free dataset gives the empty
result rather than an error. -/
theorem filter_by_year_exact (df : DataFrame) (year : String) (yi : Nat)
    (hy : df.colIndex "year" = some yi) :
    ∃ vf, filter_by_year df year = some vf ∧
      (∀ r ∈ vf.rows, cellAt r yi = some year) ∧
      (∀ r ∈ df.rows, cellAt r yi = some year → r ∈ vf.rows) ∧
      vf.rows.length = df.rows.countP (fun r => cellAt r yi == some year) ∧
      ((∀ r ∈ df.rows, cellAt r yi ≠ some year) → vf.rows = []) := by
  refine ⟨⟨df.header, df.rows.filter (fun r => cellAt r yi == some year)⟩,
    ?_, ?_, ?_, ?_, ?_⟩
  · simp [filter_by_year, hy]
  · intro r hr
    simpa using (List.mem_filter.mp hr).2
  · intro r hr hcell
    exact List.mem_filter.mpr ⟨hr, by simpa using hcell⟩
  · simpa using (List.countP_eq_length_filter _ df.rows).symm
  · intro hnone
    simp only [List.filter_eq_nil_iff]
    intro r hr
    simpa using hnone r hr

/-- Witness for `filter_by_year_exact` at the scenario dataset. -/
theorem filter_by_year_exact_witness :
    ∃ vf, filter_by_year scenarioDf "1997" = some vf ∧
      (∀ r ∈ vf.rows, cellAt r 0 = some "1997") ∧
      (∀ r ∈ scenarioDf.rows, cellAt r 0 = some "1997" → r ∈ vf.rows) ∧
      vf.rows.length = scenarioDf.rows.countP (fun r => cellAt r 0 == some "1997") ∧
      ((∀ r ∈ scenarioDf.rows, cellAt r 0 ≠ some "1997") → vf.rows = []) :=
  filter_by_year_exact scenarioDf "1997" 0 rfl

/-- Claim C7: When no row matches the target year 1997, the pipeline still
succeeds and produces a chart with zero bars. -/
theorem no_match_zero_bars (df : DataFrame) (yi ci cti : Nat)
    (hy : df.colIndex "year" = some yi)
    (hc : df.colIndex "continent" = some ci)
    (hk : df.colIndex "country" = some cti)
    (hlen : 2 ≤ df.header.length)
    (hnone : ∀ r ∈ df.rows, cellAt r yi ≠ some "1997") :
    ∃ ch, making_bar_charts df = some ch ∧ ch.bars = [] := by
  have hfil : df.rows.filter (fun r => cellAt r yi == some "1997") = [] := by
    simp only [List.filter_eq_nil_iff]
    intro r hr
    simpa using hnone r hr
  have hy2 : df.header.indexOf? "year" = some yi := hy
  have hc2 : df.header.indexOf? "continent" = some ci := hc
  have hk2 : df.header.indexOf? "country" = some cti := hk
  refine ⟨⟨"Figure 1: Africa has the most countries by continent",
      ["Source: Pandemic Preparedness Toolkit",
       "Note: Counts are based on boundaries in 1997."], []⟩, ?_, rfl⟩
  simp [making_bar_charts, filter_by_year, aggregate_counts, DataFrame.colIndex,
    DataFrame.colAt, hy2, hfil, hc2, hk2, hlen, firstOccs, decorate]

/-- Witness for `no_match_zero_bars` at a dataset whose single row is from 1998. -/
theorem no_match_zero_bars_witness :
    ∃ ch, making_bar_charts otherYearDf = some ch ∧ ch.bars = [] :=
  no_match_zero_bars otherYearDf 0 1 2 rfl rfl rfl (by decide)
    (by intro r hr; fin_cases hr; decide)

theorem aggregate_counts_eq (df : DataFrame) (ci cti : Nat)
    (hc : df.colIndex "continent" = some ci)
    (hk : df.colIndex "country" = some cti) :
    aggregate_counts df = some
      ((List.insertionSort (· ≤ ·) (firstOccs (df.colAt ci))).map fun c =>
        (c, df.rows.countP (fun r => cellAt r ci == some c && (cellAt r cti).isSome))) := by
  have hc2 : df.header.indexOf? "continent" = some ci := hc
  have hk2 : df.header.indexOf? "country" = some cti := hk
  simp [aggregate_counts, DataFrame.colIndex, hc2, hk2]

theorem countP_continent (df : DataFrame) (ci cti : Nat)
    (hcountry : ∀ r ∈ df.rows, cti < r.length) (c : String) :
    df.rows.countP (fun r => cellAt r ci == some c && (cellAt r cti).isSome) =
      df.rows.countP (fun r => cellAt r ci == some c) :=
  List.countP_congr fun r hr => by
    simp [cellAt, List.getElem?_eq_getElem (hcountry r hr)]

theorem mem_colAt {df : DataFrame} {i : Nat} {c : String} :
    c ∈ df.colAt i ↔ ∃ r ∈ df.rows, cellAt r i = some c := by
  simp [DataFrame.colAt, cellAt]

/-- Claim C2: For every dataset with the required columns whose rows all carry a
`country` cell, the aggregation over the filtered dataset yields, for each
continent, exactly the number of filtered rows with that continent value, and
produces one pair per distinct continent present in the filtered dataset. -/
theorem aggregate_counts_exact (df : DataFrame) (year : String) (yi ci cti : Nat)
    (hy : df.colIndex "year" = some yi)
    (hc : df.colIndex "continent" = some ci)
    (hk : df.colIndex "country" = some cti)
    (hcountry : ∀ r ∈ df.rows, cti < r.length) :
    ∃ vf pivot, filter_by_year df year = some vf ∧ aggregate_counts vf = some pivot ∧
      (∀ p ∈ pivot, p.2 = vf.rows.countP (fun r => cellAt r ci == some p.1)) ∧
      (pivot.map Prod.fst).Nodup ∧
      (∀ c, c ∈ pivot.map Prod.fst ↔ ∃ r ∈ vf.rows, cellAt r ci = some c) := by
  have hy2 : df.header.indexOf? "year" = some yi := hy
  refine ⟨⟨df.header, df.rows.filter (fun r => cellAt r yi == some year)⟩, _,
    by simp [filter_by_year, DataFrame.colIndex, hy2], aggregate_counts_eq _ ci cti hc hk,
    ?_, ?_, ?_⟩
  · intro p hp
    obtain ⟨c, _, rfl⟩ := List.mem_map.mp hp
    exact countP_continent _ ci cti
      (fun r hr => hcountry r (List.mem_of_mem_filter hr)) c
  · rw [List.map_map]
    simpa [Function.comp_def] using
      ((List.perm_insertionSort (α := String) (· ≤ ·) _).symm).nodup (firstOccs_nodup _)
  · intro c
    simp [List.map_map, Function.comp_def, firstOccs_mem, mem_colAt]

/-- Witness for `aggregate_counts_exact` at the scenario dataset. -/
theorem aggregate_counts_exact_witness :
    ∃ vf pivot, filter_by_year scenarioDf "1997" = some vf ∧
      aggregate_counts vf = some pivot ∧
      (∀ p ∈ pivot, p.2 = vf.rows.countP (fun r => cellAt r 1 == some p.1)) ∧
      (pivot.map Prod.fst).Nodup ∧
      (∀ c, c ∈ pivot.map Prod.fst ↔ ∃ r ∈ vf.rows, cellAt r 1 = some c) :=
  aggregate_counts_exact scenarioDf "1997" 0 1 2 rfl rfl rfl
    (by intro r hr; fin_cases hr <;> decide)

theorem count_colAt (df : DataFrame) (i : Nat) (c : String) :
    (df.colAt i).count c = df.rows.countP (fun r => cellAt r i == some c) := by
  rw [List.count_eq_countP, DataFrame.colAt, List.countP_filterMap]
  refine List.countP_congr fun r _ => ?_
  cases h : r[i]? <;> simp [cellAt, h]

theorem length_colAt (df : DataFrame) (i : Nat) (h : ∀ r ∈ df.rows, i < r.length) :
    (df.colAt i).length = df.rows.length := by
  rw [DataFrame.colAt, List.length_filterMap_eq_countP]
  exact List.countP_eq_length.mpr fun r hr => by
    simp [List.getElem?_eq_getElem (h r hr)]

theorem aggregate_sum (df : DataFrame) (ci cti : Nat)
    (hci : ∀ r ∈ df.rows, ci < r.length) (hcti : ∀ r ∈ df.rows, cti < r.length) :
    ((List.insertionSort (· ≤ ·) (firstOccs (df.colAt ci))).map (fun c =>
        df.rows.countP (fun r => cellAt r ci == some c && (cellAt r cti).isSome))).sum
      = df.rows.length := by
  have h1 : ∀ c ∈ List.insertionSort (· ≤ ·) (firstOccs (df.colAt ci)),
      df.rows.countP (fun r => cellAt r ci == some c && (cellAt r cti).isSome)
        = (df.colAt ci).count c := fun c _ => by
    rw [countP_continent df ci cti hcti c, count_colAt]
  rw [List.map_congr_left h1,
    ((List.perm_insertionSort (α := String) (· ≤ ·) _).map fun c =>
      (df.colAt ci).count c).sum_eq,
    sum_count_firstOccs, length_colAt df ci hci]

/-- Claim C8: For every dataset with the required columns whose rows carry
continent and country cells, the counts produced by aggregation over the
filtered dataset sum to the number of filtered rows. -/
theorem sum_counts_eq_filtered_size (df : DataFrame) (year : String) (yi ci cti : Nat)
    (hy : df.colIndex "year" = some yi)
    (hc : df.colIndex "continent" = some ci)
    (hk : df.colIndex "country" = some cti)
    (hcells : ∀ r ∈ df.rows, ci < r.length ∧ cti < r.length) :
    ∃ vf pivot, filter_by_year df year = some vf ∧ aggregate_counts vf = some pivot ∧
      (pivot.map Prod.snd).sum = vf.rows.length := by
  have hy2 : df.header.indexOf? "year" = some yi := hy
  refine ⟨⟨df.header, df.rows.filter (fun r => cellAt r yi == some year)⟩, _,
    by simp [filter_by_year, DataFrame.colIndex, hy2],
    aggregate_counts_eq _ ci cti hc hk, ?_⟩
  rw [List.map_map]
  exact aggregate_sum ⟨df.header, df.rows.filter (fun r => cellAt r yi == some year)⟩
    ci cti
    (fun r hr => (hcells r (List.mem_of_mem_filter hr)).1)
    (fun r hr => (hcells r (List.mem_of_mem_filter hr)).2)

/-- Witness for `sum_counts_eq_filtered_size` at the scenario dataset. -/
theorem sum_counts_eq_filtered_size_witness :
    ∃ vf pivot, filter_by_year scenarioDf "1997" = some vf ∧
      aggregate_counts vf = some pivot ∧
      (pivot.map Prod.snd).sum = vf.rows.length :=
  sum_counts_eq_filtered_size scenarioDf "1997" 0 1 2 rfl rfl rfl
    (by intro r hr; fin_cases hr <;> exact ⟨by decide, by decide⟩)

theorem making_bar_charts_inv (df : DataFrame) (ch : Chart)
    (hch : making_bar_charts df = some ch) :
    ∃ vf pivot, filter_by_year df "1997" = some vf ∧
      aggregate_counts vf = some pivot ∧ 2 ≤ vf.header.length ∧
      ch.bars =
        decorate pivot ((value_counts (vf.colAt 1)).map fun p => toString p.2) colours := by
  unfold making_bar_charts at hch
  cases hf : filter_by_year df "1997" with
  | none => rw [hf] at hch; exact absurd hch (by simp)
  | some vf =>
    rw [hf] at hch
    simp only [Option.some_bind] at hch
    cases hagg : aggregate_counts vf with
    | none => rw [hagg] at hch; exact absurd hch (by simp)
    | some pivot =>
      rw [hagg] at hch
      simp only [Option.some_bind] at hch
      by_cases hl : 2 ≤ vf.header.length
      · rw [if_pos hl] at hch
        obtain rfl : _ = ch := Option.some.inj hch
        exact ⟨vf, pivot, rfl, hagg, hl, rfl⟩
      · rw [if_neg hl] at hch
        exact absurd hch (by simp)

theorem aggregate_fst_sorted (df : DataFrame) (pivot : List (String × Nat))
    (h : aggregate_counts df = some pivot) :
    (pivot.map Prod.fst).Sorted (· ≤ ·) := by
  unfold aggregate_counts at h
  cases hc : df.colIndex "continent" with
  | none => rw [hc] at h; exact absurd h (by simp)
  | some ci =>
    rw [hc] at h
    simp only [Option.some_bind] at h
    cases hk : df.colIndex "country" with
    | none => rw [hk] at h; exact absurd h (by simp)
    | some cti =>
      rw [hk] at h
      simp only [Option.map_some'] at h
      obtain rfl : _ = pivot := Option.some.inj h
      rw [List.map_map]
      simpa [Function.comp_def] using
        List.sorted_insertionSort (α := String) (· ≤ ·)
          (firstOccs (df.colAt ci))

/-- Claim C3: Every chart produced from a non-empty filtered dataset displays
its bars in non-decreasing order of count, from the origin outward. -/
theorem displayBars_ascending (df vf : DataFrame) (ch : Chart)
    (_hf : filter_by_year df "1997" = some vf) (_hne : vf.rows ≠ [])
    (_hch : making_bar_charts df = some ch) :
    (ch.displayBars.map Bar.count).Sorted (· ≤ ·) :=
  List.pairwise_map.mpr (List.sorted_insertionSort barLE ch.bars)

/-- Witness for `displayBars_ascending` at the scenario dataset. -/
theorem displayBars_ascending_witness :
    ∃ vf ch, filter_by_year scenarioDf "1997" = some vf ∧ vf.rows ≠ [] ∧
      making_bar_charts scenarioDf = some ch ∧
      (ch.displayBars.map Bar.count).Sorted (· ≤ ·) :=
  ⟨_, _, rfl, by decide, rfl,
    displayBars_ascending scenarioDf _ _ rfl (by decide) rfl⟩

/-- Claim C10: The per-bar labels are the stringified values of the
`value_counts` tally of positional column 1 of the filtered dataset, assigned
to the bars positionally, and that tally is ordered by descending count. -/
theorem labels_positional_from_column_one (df vf : DataFrame) (ch : Chart)
    (hf : filter_by_year df "1997" = some vf)
    (hch : making_bar_charts df = some ch) :
    (∀ (i : Nat) (b : Bar), ch.bars[i]? = some b →
        b.text = ((value_counts (vf.colAt 1)).map (fun p => toString p.2))[i]?) ∧
      (value_counts (vf.colAt 1)).Sorted descCount := by
  obtain ⟨vf2, pivot, hf2, hagg, hlen, hbars⟩ := making_bar_charts_inv df ch hch
  obtain rfl : vf2 = vf := by rw [hf] at hf2; exact (Option.some.inj hf2).symm
  refine ⟨?_, List.sorted_insertionSort descCount _⟩
  intro i b hb
  rw [hbars, decorate_getElem?] at hb
  cases hp : pivot[i]? with
  | none => rw [hp] at hb; exact absurd hb (by simp)
  | some p =>
    rw [hp] at hb
    have hb2 := Option.some.inj hb
    rw [← hb2]

/-- Witness for `labels_positional_from_column_one` at the scenario dataset. -/
theorem labels_positional_from_column_one_witness :
    ∃ vf ch, filter_by_year scenarioDf "1997" = some vf ∧
      making_bar_charts scenarioDf = some ch ∧
      ((∀ (i : Nat) (b : Bar), ch.bars[i]? = some b →
          b.text = ((value_counts (vf.colAt 1)).map (fun p => toString p.2))[i]?) ∧
        (value_counts (vf.colAt 1)).Sorted descCount) :=
  ⟨_, _, rfl, rfl, labels_positional_from_column_one scenarioDf _ _ rfl rfl⟩

/-- Claim C4: The spec scenario: filtering the four-row dataset to 1997 keeps 3
rows, the ascending aggregated sequence displayed is `[(Asia, 1), (Africa, 2)]`,
and the highlighted bar is Africa with label `"2"`. -/
theorem scenario_behaviour :
    ∃ vf ch, filter_by_year scenarioDf "1997" = some vf ∧
      vf.rows.length = 3 ∧
      making_bar_charts scenarioDf = some ch ∧
      ch.displayBars.map (fun b => (b.continent, b.count)) = [("Asia", 1), ("Africa", 2)] ∧
      (∃ b ∈ ch.bars, b.marker_color = some "#003d59" ∧ b.continent = "Africa" ∧
        b.count = 2 ∧ b.text = some "2") :=
  ⟨_, _, rfl, by decide, rfl, by decide, by decide⟩

/-- Claim C1, code defect: On `permutedDf` (Africa has one 1997 row, Asia two)
the bar that carries the highlight colour represents Africa with aggregated
count 1, yet its rendered label is `"2"`: the positionally assigned labels do
not match the bars they sit on. -/
theorem highlighted_label_mismatch :
    ∃ ch, making_bar_charts permutedDf = some ch ∧
      ∃ b ∈ ch.bars, b.marker_color = some "#003d59" ∧ b.continent = "Africa" ∧
        b.count = 1 ∧ b.text = some "2" ∧ b.text ≠ some (toString b.count) :=
  ⟨_, rfl, by decide⟩

/-- The property claim C5 asserts of a produced chart: one bar carries the
highlight colour, that bar represents the extreme (largest or smallest) count,
and every other bar is the uniform neutral grey. -/
def highlightIsExtreme : Option Chart → Prop
  | none => False
  | some ch =>
      ∃ b ∈ ch.bars, b.marker_color = some "#003d59" ∧
        ((∀ b2 ∈ ch.bars, b2.count ≤ b.count) ∨ (∀ b2 ∈ ch.bars, b.count ≤ b2.count)) ∧
        ∀ b2 ∈ ch.bars, b2 ≠ b → b2.marker_color = some "lightgrey"

instance : (oc : Option Chart) → Decidable (highlightIsExtreme oc)
  | none => isFalse (fun h => h)
  | some ch => by unfold highlightIsExtreme; infer_instance

/-- Claim C5, counterexample: On `middleDf` the highlighted bar is Alpha with
count 2, which is neither the largest (Gamma, 3) nor the smallest (Beta, 1)
count, so the highlight does not mark an extreme. -/
theorem highlight_not_extreme_cex :
    ¬ highlightIsExtreme (making_bar_charts middleDf) := by decide

/-- Claim C5, amended: In every produced chart with at least one and at most
five bars, the first bar in data order — the one whose continent is
alphabetically least — carries the highlight colour `"#003d59"` and every
other bar is `"lightgrey"`; the highlighted bar need not represent an extreme
count. -/
theorem highlight_first_alphabetical (df : DataFrame) (ch : Chart)
    (hch : making_bar_charts df = some ch)
    (hne : ch.bars ≠ []) (hlen : ch.bars.length ≤ 5) :
    ∃ b bs, ch.bars = b :: bs ∧ b.marker_color = some "#003d59" ∧
      (∀ b2 ∈ bs, b2.marker_color = some "lightgrey") ∧
      (∀ b2 ∈ ch.bars, b.continent ≤ b2.continent) := by
  obtain ⟨vf, pivot, hf, hagg, hl2, hbars⟩ := making_bar_charts_inv df ch hch
  have hsorted : (pivot.map Prod.fst).Sorted (· ≤ ·) := aggregate_fst_sorted vf pivot hagg
  cases hp : pivot with
  | nil =>
    rw [hp] at hbars
    exact absurd hbars (by simpa [decorate] using hne)
  | cons p ps =>
    rw [hp] at hbars hsorted
    refine ⟨_, _, hbars, rfl, ?_, ?_⟩
    · intro b2 hb2
      obtain ⟨i, q, hq, rfl⟩ := decorate_mem hb2
      have hi : i < ps.length := (List.getElem?_eq_some_iff.mp hq).1
      have hps : ps.length ≤ 4 := by
        have hdl := decorate_length (p :: ps)
          ((value_counts (vf.colAt 1)).map fun q2 => toString q2.2) colours
        rw [← hbars] at hdl
        simp only [List.length_cons] at hdl
        omega
      have hi4 : i < 4 := by omega
      interval_cases i <;> rfl
    · intro b2 hb2
      rw [hbars] at hb2
      obtain ⟨i, q, hq, rfl⟩ := decorate_mem hb2
      show p.1 ≤ q.1
      rw [List.map_cons] at hsorted
      rcases List.mem_cons.mp (List.getElem?_mem hq) with hqp | hqps
      · rw [hqp]
      · exact List.rel_of_sorted_cons hsorted q.1
          (List.mem_map_of_mem Prod.fst hqps)

/-- Witness for `highlight_first_alphabetical` at the scenario dataset. -/
theorem highlight_first_alphabetical_witness :
    ∃ ch, making_bar_charts scenarioDf = some ch ∧
      ∃ b bs, ch.bars = b :: bs ∧ b.marker_color = some "#003d59" ∧
        (∀ b2 ∈ bs, b2.marker_color = some "lightgrey") ∧
        (∀ b2 ∈ ch.bars, b.continent ≤ b2.continent) :=
  ⟨_, rfl, highlight_first_alphabetical scenarioDf _ rfl (by decide) (by decide)⟩

/-! ### The load step (C9), modelled from the spec -/

/-- The error raised when the data source cannot be loaded. -/
inductive DataLoadError where
  | missingSource
  | unreadableEncoding
  | missingColumns
deriving DecidableEq, Repr

/-- A data source for `pd.read_csv`: whether the file is present, whether its
encoding is readable, and the table it holds when both are true. -/
structure Source where
  present : Bool
  readable : Bool
  table : DataFrame

/-- The columns the script needs. -/
def requiredColumns : List String := ["year", "continent", "country"]

/-- Modelled from the spec: the load step of the script is `pd.read_csv`, a library
routine whose internals are not part of this repository.  Per the spec,
`load` fails with a `DataLoadError` exactly when the source is missing or
malformed — an unreadable encoding, or a required column (`year`, `continent`,
`country`) absent — and otherwise returns the table. -/
def load (src : Source) : Except DataLoadError DataFrame :=
  if src.present = false then .error .missingSource
  else if src.readable = false then .error .unreadableEncoding
  else if ∀ c ∈ requiredColumns, c ∈ src.table.header then .ok src.table
  else .error .missingColumns

/-- The whole run: load, then the chart-building body; a load failure is
surfaced to the caller and aborts the run with no chart. -/
def run (src : Source) : Except DataLoadError (Option Chart) :=
  match load src with
  | .error e => .error e
  | .ok df => .ok (making_bar_charts df)

/-- Claim C9: The load step fails exactly when the source is missing or
malformed (unreadable encoding or a missing required column); a load error is
surfaced to the caller unchanged and the run aborts producing no chart, while
a successful load continues into chart building. -/
theorem load_error_characterisation (src : Source) :
    ((∃ e, load src = .error e) ↔
      (src.present = false ∨ src.readable = false ∨
        ¬ ∀ c ∈ requiredColumns, c ∈ src.table.header)) ∧
      (∀ e, load src = .error e → run src = .error e) ∧
      (∀ df, load src = .ok df → run src = .ok (making_bar_charts df)) := by
  refine ⟨⟨?_, ?_⟩, ?_, ?_⟩
  · intro ⟨e, he⟩
    by_contra hno
    push_neg at hno
    obtain ⟨h1, h2, h3⟩ := hno
    rw [load, if_neg h1, if_neg h2, if_pos h3] at he
    cases he
  · intro h
    unfold load
    rcases h with h1 | h2 | h3
    · exact ⟨.missingSource, by rw [if_pos h1]⟩
    · by_cases h1 : src.present = false
      · exact ⟨.missingSource, by rw [if_pos h1]⟩
      · exact ⟨.unreadableEncoding, by rw [if_neg h1, if_pos h2]⟩
    · by_cases h1 : src.present = false
      · exact ⟨.missingSource, by rw [if_pos h1]⟩
      · by_cases h2 : src.readable = false
        · exact ⟨.unreadableEncoding, by rw [if_neg h1, if_pos h2]⟩
        · exact ⟨.missingColumns, by rw [if_neg h1, if_neg h2, if_neg h3]⟩
  · intro e he
    rw [run, he]
  · intro df hdf
    rw [run, hdf]

/-- Witness for `load_error_characterisation`: a missing source makes the run
abort with `DataLoadError.missingSource`, and a well-formed source runs
through to the chart. -/
theorem load_error_characterisation_witness :
    run ⟨false, true, scenarioDf⟩ = .error .missingSource ∧
      run ⟨true, true, scenarioDf⟩ = .ok (making_bar_charts scenarioDf) :=
  ⟨(load_error_characterisation ⟨false, true, scenarioDf⟩).2.1 .missingSource rfl,
    (load_error_characterisation ⟨true, true, scenarioDf⟩).2.2 scenarioDf rfl⟩

end MakingBarCharts
